import Mathlib

/-!
Shallow embedding of the MotorNet muscle contraction-dynamics engine
(`MotorNet/plants/muscles.py`), modelled per element over the reals.

Tensor operations become scalar real operations; `tf.where` becomes `if`;
`tf.clip_by_value` is `max (min x hi) lo` (TensorFlow clips with `minimum`
first, then `maximum`); `tf.debugging.assert_*` failures become `Except.error`.
-/

namespace MotorNet

noncomputable section

/-- `tf.clip_by_value t lo hi = maximum (minimum t hi) lo`. -/
def clip (x lo hi : ℝ) : ℝ := max (min x hi) lo

/- Class-level constants shared by the Hill-muscle variants. -/

def s_as : ℝ := 0.001
def f_iso_n_den : ℝ := 0.66 ^ 2
def b_rel_st_den : ℝ := 0.005 - 0.3
def k_se : ℝ := 1 / 0.04 ^ 2
def q_crit : ℝ := 0.3
def min_flce : ℝ := 0.01
def pe_k : ℝ := 5
def pe_1 : ℝ := pe_k / 0.66
def pe_den : ℝ := Real.exp pe_k - 1
def ce_gamma : ℝ := 0.45
def ce_Af : ℝ := 0.25
def ce_fmlen : ℝ := 1.4

/-- Per-muscle configuration produced by a Hill-variant `build`
(scalar view of one muscle). `l0_pe = l0_ce * normalized_slack_muscle_length`. -/
structure HillConfig where
  dt : ℝ
  min_activation : ℝ
  max_iso_force : ℝ
  l0_se : ℝ
  l0_ce : ℝ
  l0_pe : ℝ

/-- `k_pe = 1 / ((1.66 - l0_pe / l0_ce) ** 2)` derived at build time. -/
def HillConfig.k_pe (c : HillConfig) : ℝ :=
  1 / (1.66 - c.l0_pe / c.l0_ce) ^ 2

/-- `vmax = 10 * l0_ce` derived at build time. -/
def HillConfig.vmax (c : HillConfig) : ℝ := 10 * c.l0_ce

/-- `Muscle._activation_ode`: clamp excitation and activation to
`[min_activation, 1]`, blend the activation/deactivation time constants with
`tau_scaler = 0.5 + 1.5 * activation`, and return `(excitation - activation) / tau`. -/
def activation_ode (min_activation tau_activation tau_deactivation
    excitation activation : ℝ) : ℝ :=
  let e := clip excitation min_activation 1
  let a := clip activation min_activation 1
  let tau_scaler := 0.5 + 1.5 * a
  let tau := if a < e then tau_activation * tau_scaler else tau_deactivation / tau_scaler
  (e - a) / tau

/-- Configuration of `ReluMuscle` (base `Muscle.build` derives no lengths). -/
structure ReluConfig where
  dt : ℝ
  min_activation : ℝ
  max_iso_force : ℝ

/-- State layout of `ReluMuscle`
(`excitation, muscle length, muscle velocity, force`); channel 0 holds the
clipped activation after `_integrate`. -/
structure ReluState where
  activation : ℝ
  muscle_len : ℝ
  muscle_vel : ℝ
  force : ℝ

/-- State layout of `RigidTendonHillMuscle` (Kistemaker): `activation,
muscle length, muscle velocity, force-length PE, force-length CE,
force-velocity CE, force`; the force-velocity channel holds `active_force`. -/
structure RigidState where
  activation : ℝ
  muscle_len : ℝ
  muscle_vel : ℝ
  flpe : ℝ
  flce : ℝ
  active_force : ℝ
  force : ℝ

/-- State layout of `RigidTendonHillMuscleThelen`: `activation, muscle length,
muscle velocity, force-length PE, force-length CE, force-velocity CE, force`. -/
structure ThelenState where
  activation : ℝ
  muscle_len : ℝ
  muscle_vel : ℝ
  flpe : ℝ
  flce : ℝ
  fvce : ℝ
  force : ℝ

/-- State layout of `CompliantTendonHillMuscle`: `activation, muscle length,
muscle velocity, force-length PE, force-length SE, active force, force`. -/
structure CompliantState where
  activation : ℝ
  muscle_len : ℝ
  muscle_vel : ℝ
  flpe : ℝ
  flse : ℝ
  active_force : ℝ
  force : ℝ

/-- `ReluMuscle._integrate`: Euler step on activation, clip, then
`force = relu(activation) * max_iso_force`; length and velocity are copied
from the geometry state. -/
def reluIntegrate (c : ReluConfig) (dt d a0 geom_len geom_vel : ℝ) : ReluState :=
  let activation := clip (a0 + d * dt) c.min_activation 1
  let forces := max activation 0 * c.max_iso_force
  ⟨activation, geom_len, geom_vel, forces⟩

/-- `ReluMuscle._get_initial_muscle_state`: excitation channel set to
`min_activation`, force zero, length/velocity copied from geometry. -/
def reluInit (c : ReluConfig) (geom_len geom_vel : ℝ) : ReluState :=
  ⟨c.min_activation, geom_len, geom_vel, 0⟩

/-- `RigidTendonHillMuscle._integrate` (Kistemaker 2006), scalar view:
rigid-tendon geometry, quadratic passive force, parabolic active force-length,
and the activation-dependent rational force-velocity law. -/
def rigidIntegrate (c : HillConfig) (dt d a0 musculotendon_len muscle_vel : ℝ) :
    RigidState :=
  let activation := clip (a0 + d * dt) c.min_activation 1
  let muscle_len := max (musculotendon_len - c.l0_se) 0
  let muscle_strain := max ((muscle_len - c.l0_pe) / c.l0_ce) 0
  let muscle_len_n := muscle_len / c.l0_ce
  let muscle_vel_n := muscle_vel / c.vmax
  let flpe := min (c.k_pe * muscle_strain ^ 2) 3
  let flce := max (1 + (-muscle_len_n ^ 2 + 2 * muscle_len_n - 1) / f_iso_n_den) min_flce
  let a_rel_st := if muscle_len_n > 1 then 0.41 * flce else 0.41
  let b_rel_st := if activation < q_crit
    then 5.2 * (1 - 0.9 * ((activation - q_crit) / (0.005 - q_crit))) ^ 2
    else 5.2
  let dvdf_isom_con := b_rel_st / (activation * (flce + a_rel_st))
  let dfdvcon0 := 1 / dvdf_isom_con
  let p1 := -(flce * activation * 0.5) / (s_as - dfdvcon0 * 2)
  let p2 := (flce * activation * 0.5) ^ 2 / (s_as - dfdvcon0 * 2)
  let p3 := -1.5 * flce * activation
  let p4 := -s_as
  let nom := if muscle_vel_n < 0
    then muscle_vel_n * activation * a_rel_st + flce * activation * b_rel_st
    else -p1 * p3 - p1 * p4 * muscle_vel_n + p2 - p3 * muscle_vel_n - p4 * muscle_vel_n ^ 2
  let den := if muscle_vel_n < 0 then b_rel_st - muscle_vel_n else p1 + muscle_vel_n
  let active_force := max (nom / den) 0
  let force := (active_force + flpe) * c.max_iso_force
  ⟨activation, muscle_len, muscle_vel, flpe, flce, active_force, force⟩

/-- `RigidTendonHillMuscle._get_initial_muscle_state`: one `integrate` call
with a zero derivative and an all-`min_activation` state channel. -/
def rigidInit (c : HillConfig) (musculotendon_len muscle_vel : ℝ) : RigidState :=
  rigidIntegrate c c.dt 0 c.min_activation musculotendon_len muscle_vel

/- Thelen force-velocity coefficients precomputed at build time. -/

def HillConfig.ce_0 (c : HillConfig) : ℝ := 3 * c.vmax
def HillConfig.ce_1 (c : HillConfig) : ℝ := ce_Af * c.vmax
def HillConfig.ce_2 (c : HillConfig) : ℝ := 3 * ce_Af * c.vmax * ce_fmlen - 3 * ce_Af * c.vmax
def HillConfig.ce_3 : ℝ := 8 * ce_Af * ce_fmlen + 8 * ce_fmlen
def HillConfig.ce_4 (c : HillConfig) : ℝ := ce_Af * ce_fmlen * c.vmax - c.ce_1
def HillConfig.ce_5 : ℝ := 8 * (ce_Af + 1)

/-- `RigidTendonHillMuscleThelen._integrate` (Thelen 2003), scalar view:
rigid-tendon geometry with a `0.001` floor, exponential passive force,
Gaussian-like active force-length, rational force-velocity split at
`muscle_vel ≤ 0`. -/
def thelenIntegrate (c : HillConfig) (dt d a0 musculotendon_len muscle_vel : ℝ) :
    ThelenState :=
  let activation := clip (a0 + d * dt) c.min_activation 1
  let muscle_len := max (musculotendon_len - c.l0_se) 0.001
  let activation3 := activation * 3
  let nom := if muscle_vel ≤ 0
    then ce_Af * (activation * c.ce_0 + 4 * muscle_vel + c.vmax)
    else c.ce_2 * activation + HillConfig.ce_3 * muscle_vel + c.ce_4
  let den := if muscle_vel ≤ 0
    then activation3 * c.ce_1 + c.ce_1 - 4 * muscle_vel
    else c.ce_4 * activation3 + HillConfig.ce_5 * muscle_vel + c.ce_4
  let fvce := max (nom / den) 0
  let flpe := max ((Real.exp (pe_1 * (muscle_len - c.l0_pe) / c.l0_ce) - 1) / pe_den) 0
  let flce := Real.exp (-((muscle_len / c.l0_ce - 1) ^ 2) / ce_gamma)
  let force := (activation * flce * fvce + flpe) * c.max_iso_force
  ⟨activation, muscle_len, muscle_vel, flpe, flce, fvce, force⟩

/-- `RigidTendonHillMuscleThelen._get_initial_muscle_state`: one `integrate`
call with a zero derivative and an all-`min_activation` state channel. -/
def thelenInit (c : HillConfig) (musculotendon_len muscle_vel : ℝ) : ThelenState :=
  thelenIntegrate c c.dt 0 c.min_activation musculotendon_len muscle_vel

/- `CompliantTendonHillMuscle._muscle_ode` pieces, named so theorems can refer
to the radicand and the branch threshold. -/

/-- Isometric force-length parabola floored at `0.01`. -/
def ode_f_iso_n (lmn : ℝ) : ℝ :=
  max (1 + (-lmn ^ 2 + 2 * lmn - 1) / f_iso_n_den) 0.01

/-- `a_rel_st` coefficient of `_muscle_ode`. -/
def ode_a_rel_st (lmn : ℝ) : ℝ :=
  if lmn > 1 then 0.41 * ode_f_iso_n lmn else 0.41

/-- `b_rel_st` coefficient of `_muscle_ode`. -/
def ode_b_rel_st (act : ℝ) : ℝ :=
  if act < 0.3 then 5.2 * (1 - 0.9 * ((act - 0.3) / b_rel_st_den)) ^ 2 else 5.2

/-- `dfdvcon0 = 1 / dvdf_isom_con`, the slope at the isometric point. -/
def ode_dfdvcon0 (lmn act : ℝ) : ℝ :=
  1 / (ode_b_rel_st act / (act * (ode_f_iso_n lmn + ode_a_rel_st lmn)))

/-- `f_x_a = f_iso_n * activation`, the isometric force threshold. -/
def ode_f_x_a (lmn act : ℝ) : ℝ := ode_f_iso_n lmn * act

/-- `p1` rational coefficient of `_muscle_ode`. -/
def ode_p1 (lmn act : ℝ) : ℝ :=
  -(ode_f_x_a lmn act * 0.5) / (s_as - ode_dfdvcon0 lmn act * 2)

/-- `p3` rational coefficient of `_muscle_ode`. -/
def ode_p3 (lmn act : ℝ) : ℝ := -1.5 * ode_f_x_a lmn act

/-- `p4 = -s_as`. -/
def ode_p4 : ℝ := -s_as

/-- `p2_containing_term`: `p2` pre-divided so it never overflows. -/
def ode_p2_containing_term (lmn act : ℝ) : ℝ :=
  4 * (ode_f_x_a lmn act * 0.5) ^ 2 * ode_p4 / (s_as - ode_dfdvcon0 lmn act * 2)

/-- The radicand of the square-root term of `_muscle_ode`. -/
def ode_sqrt_term (lmn act af : ℝ) : ℝ :=
  af ^ 2 - 2 * af * ode_p1 lmn act * ode_p4 + 2 * af * ode_p3 lmn act
    + ode_p1 lmn act ^ 2 * ode_p4 ^ 2 - 2 * ode_p1 lmn act * ode_p3 lmn act * ode_p4
    + ode_p2_containing_term lmn act + ode_p3 lmn act ^ 2

/-- `CompliantTendonHillMuscle._muscle_ode`: the implicit fiber-velocity
solver. The `tf.debugging.assert_non_negative` guard (radicand negative while
`active_force ≥ f_x_a`) becomes `Except.error`; otherwise the radicand is
clamped to `≥ 0` and the branch is selected by comparing `active_force` with
`f_x_a`. -/
def muscle_ode (lmn act af : ℝ) : Except String ℝ :=
  if ode_sqrt_term lmn act af < 0 ∧ ode_f_x_a lmn act ≤ af then
    .error "root that should be used is negative."
  else
    let st := max (ode_sqrt_term lmn act af) 0
    let nom := if af < ode_f_x_a lmn act
      then ode_b_rel_st act * (af - ode_f_x_a lmn act)
      else -af + ode_p1 lmn act * s_as - ode_p3 lmn act - Real.sqrt st
    let den := if af < ode_f_x_a lmn act
      then af + act * ode_a_rel_st lmn
      else -2 * s_as
    .ok (nom / den)

/-- The tendon/fiber force computation shared verbatim by
`CompliantTendonHillMuscle._integrate` and `_get_initial_muscle_state`:
returns `(flse, flpe, active_force)`. -/
def compliantForces (c : HillConfig) (muscle_len musculotendon_len : ℝ) : ℝ × ℝ × ℝ :=
  let tendon_len := musculotendon_len - muscle_len
  let tendon_strain := max ((tendon_len - c.l0_se) / c.l0_se) 0
  let muscle_strain := max ((muscle_len - c.l0_pe) / c.l0_ce) 0
  let flse := min (k_se * tendon_strain ^ 2) 3
  let flpe := min (c.k_pe * muscle_strain ^ 2) 3
  (flse, flpe, max (flse - flpe) 0)

/-- `CompliantTendonHillMuscle._integrate`: forces from the previous fiber
length and current geometry, Euler steps on activation and normalized fiber
length, `force = flse * max_iso_force`. -/
def compliantIntegrate (c : HillConfig)
    (dt d_activation muscle_vel_n a0 prev_muscle_len musculotendon_len : ℝ) :
    CompliantState :=
  let muscle_len := prev_muscle_len
  let muscle_len_n := muscle_len / c.l0_ce
  let fs := compliantForces c muscle_len musculotendon_len
  let activation := clip (a0 + d_activation * dt) c.min_activation 1
  let new_muscle_len := (muscle_len_n + dt * muscle_vel_n) * c.l0_ce
  let muscle_vel := muscle_vel_n * c.vmax
  let force := fs.1 * c.max_iso_force
  ⟨activation, new_muscle_len, muscle_vel, fs.2.1, fs.1, fs.2.2, force⟩

/-- The regime-4 closed-form quadratic equilibrium fiber length of
`CompliantTendonHillMuscle._get_initial_muscle_state`. -/
def equilibrium_muscle_len (c : HillConfig) (lmt : ℝ) : ℝ :=
  (c.k_pe * c.l0_pe * c.l0_se ^ 2 - k_se * c.l0_ce ^ 2 * lmt
      + k_se * c.l0_ce ^ 2 * c.l0_se
      - c.l0_ce * c.l0_se * Real.sqrt (c.k_pe * k_se) * (-lmt + c.l0_pe + c.l0_se))
    / (c.k_pe * c.l0_se ^ 2 - k_se * c.l0_ce ^ 2)

/-- The nested `tf.where` fiber-length selection of
`CompliantTendonHillMuscle._get_initial_muscle_state` (the `-1` of the first
branch is what the following non-negativity assertion rejects). -/
def initial_muscle_len (c : HillConfig) (lmt : ℝ) : ℝ :=
  if lmt < 0 then -1
  else if lmt < c.l0_se then 0.001 * c.l0_ce
  else if lmt < c.l0_se + c.l0_pe then lmt - c.l0_se
  else equilibrium_muscle_len c lmt

/-- `CompliantTendonHillMuscle._get_initial_muscle_state`: select the fiber
length, fail if it is negative, compute forces, then the initial fiber
velocity through `muscle_ode` (which may itself fail). -/
def compliantInit (c : HillConfig) (lmt : ℝ) : Except String CompliantState :=
  let activation := c.min_activation
  let muscle_len := initial_muscle_len c lmt
  if muscle_len < 0 then .error "initial muscle length was < 0."
  else
    let fs := compliantForces c muscle_len lmt
    let force := fs.1 * c.max_iso_force
    match muscle_ode (muscle_len / c.l0_ce) activation fs.2.2 with
    | .error e => .error e
    | .ok v => .ok ⟨activation, muscle_len, v * c.vmax, fs.2.1, fs.1, fs.2.2, force⟩

/- Helper facts about `clip`. -/

theorem clip_of_mem {x lo hi : ℝ} (h1 : lo ≤ x) (h2 : x ≤ hi) : clip x lo hi = x := by
  unfold clip
  rw [min_eq_left h2, max_eq_left h1]

theorem le_clip (x lo hi : ℝ) : lo ≤ clip x lo hi := le_max_right _ _

theorem clip_le {x lo hi : ℝ} (h : lo ≤ hi) : clip x lo hi ≤ hi :=
  max_le (min_le_right _ _) h

/-- Claim C5: `activationDerivative` clamps both arguments to
`[min_activation, 1]` and returns `(excitation - activation) / tau` with
`tau = tau_activation * (0.5 + 1.5 * activation)` when `excitation > activation`
and `tau = tau_deactivation / (0.5 + 1.5 * activation)` otherwise; for
excitation and activation already in `[min_activation, 1]` (with
`0 ≤ min_activation` and positive time constants) the result is strictly
positive iff `excitation > activation`. -/
theorem activation_ode_spec (ma ta td e a : ℝ)
    (hma : 0 ≤ ma) (hme : ma ≤ e) (he : e ≤ 1) (hia : ma ≤ a) (ha : a ≤ 1)
    (hta : 0 < ta) (htd : 0 < td) :
    activation_ode ma ta td e a
      = (e - a) / (if a < e then ta * (0.5 + 1.5 * a) else td / (0.5 + 1.5 * a))
    ∧ (0 < activation_ode ma ta td e a ↔ a < e) := by
  have hscaler : (0:ℝ) < 0.5 + 1.5 * a := by nlinarith
  have heq : activation_ode ma ta td e a
      = (e - a) / (if a < e then ta * (0.5 + 1.5 * a) else td / (0.5 + 1.5 * a)) := by
    unfold activation_ode
    rw [clip_of_mem hme he, clip_of_mem hia ha]
  refine ⟨heq, ?_⟩
  rw [heq]
  constructor
  · intro hpos
    by_contra hle
    rw [if_neg hle] at hpos
    push_neg at hle
    have htau : 0 < td / (0.5 + 1.5 * a) := div_pos htd hscaler
    have : e - a ≤ 0 := by linarith
    nlinarith [div_nonpos_of_nonpos_of_nonneg this htau.le]
  · intro hlt
    rw [if_pos hlt]
    exact div_pos (by linarith) (mul_pos hta hscaler)

/-- Witness for `activation_ode_spec` at concrete inputs. -/
theorem activation_ode_spec_witness :
    activation_ode 0.001 0.015 0.05 0.5 0.2
      = (0.5 - 0.2) / (if (0.2:ℝ) < 0.5 then 0.015 * (0.5 + 1.5 * 0.2)
          else 0.05 / (0.5 + 1.5 * 0.2))
    ∧ (0 < activation_ode 0.001 0.015 0.05 0.5 0.2 ↔ (0.2:ℝ) < 0.5) :=
  activation_ode_spec 0.001 0.015 0.05 0.5 0.2 (by norm_num) (by norm_num)
    (by norm_num) (by norm_num) (by norm_num) (by norm_num) (by norm_num)

/-- Claim C1: in the compliant-tendon implicit fiber-velocity solver, a
negative radicand together with `activeForce ≥ f_x_a` makes `muscle_ode`
signal the invariant-violation failure (never a value from a clamped
radicand), while `activeForce < f_x_a` selects the square-root-free linear
branch, so a negative radicand causes no failure there. -/
theorem muscle_ode_guard (lmn act af : ℝ) :
    (ode_sqrt_term lmn act af < 0 ∧ ode_f_x_a lmn act ≤ af →
      muscle_ode lmn act af = .error "root that should be used is negative.")
    ∧ (af < ode_f_x_a lmn act →
      muscle_ode lmn act af
        = .ok (ode_b_rel_st act * (af - ode_f_x_a lmn act)
            / (af + act * ode_a_rel_st lmn))) := by
  constructor
  · intro h
    unfold muscle_ode
    rw [if_pos h]
  · intro h
    unfold muscle_ode
    rw [if_neg (by rintro ⟨-, hle⟩; exact absurd h (not_lt.mpr hle))]
    simp only [if_pos h]

/-- Witness for `muscle_ode_guard`: a concrete input whose radicand is
negative while `activeForce ≥ f_x_a`, on which the solver fails. -/
theorem muscle_ode_guard_witness :
    muscle_ode 1 0.00001 0.000035 = .error "root that should be used is negative." :=
  (muscle_ode_guard 1 0.00001 0.000035).1
    ⟨by
      norm_num [ode_sqrt_term, ode_p1, ode_p3, ode_p4, ode_p2_containing_term,
        ode_dfdvcon0, ode_f_x_a, ode_b_rel_st, ode_a_rel_st, ode_f_iso_n,
        f_iso_n_den, b_rel_st_den, s_as],
     by
      norm_num [ode_f_x_a, ode_f_iso_n, f_iso_n_den]⟩

/-- Claim C2: the compliant-tendon equilibrium initializer chooses the fiber
length by exactly one of four mutually exclusive regimes: a negative
musculotendon length signals failure; `0 ≤ lmt < l0_se` gives the small
positive floor `0.001 * l0_ce`; `l0_se ≤ lmt < l0_se + l0_pe` gives
`lmt - l0_se`; otherwise the closed-form quadratic equilibrium; and a
negative resulting fiber length signals failure. -/
theorem compliantInit_regimes (c : HillConfig) (lmt : ℝ) :
    (lmt < 0 → compliantInit c lmt = .error "initial muscle length was < 0.")
    ∧ (0 ≤ lmt → lmt < c.l0_se → initial_muscle_len c lmt = 0.001 * c.l0_ce)
    ∧ (0 ≤ lmt → c.l0_se ≤ lmt → lmt < c.l0_se + c.l0_pe →
        initial_muscle_len c lmt = lmt - c.l0_se)
    ∧ (0 ≤ lmt → c.l0_se ≤ lmt → c.l0_se + c.l0_pe ≤ lmt →
        initial_muscle_len c lmt = equilibrium_muscle_len c lmt)
    ∧ (initial_muscle_len c lmt < 0 →
        compliantInit c lmt = .error "initial muscle length was < 0.")
  := by
  have hfail : initial_muscle_len c lmt < 0 →
      compliantInit c lmt = .error "initial muscle length was < 0." := by
    intro h
    unfold compliantInit
    rw [if_pos h]
  refine ⟨?_, ?_, ?_, ?_, hfail⟩
  · intro h
    apply hfail
    unfold initial_muscle_len
    rw [if_pos h]
    norm_num
  · intro h0 hlt
    unfold initial_muscle_len
    rw [if_neg (not_lt.mpr h0), if_pos hlt]
  · intro h0 hge hlt
    unfold initial_muscle_len
    rw [if_neg (not_lt.mpr h0), if_neg (not_lt.mpr hge), if_pos hlt]
  · intro h0 hse hge
    unfold initial_muscle_len
    rw [if_neg (not_lt.mpr h0), if_neg (not_lt.mpr hse), if_neg (not_lt.mpr hge)]

/-- A concrete compliant-tendon configuration
(`dt, min_activation, max_iso_force, l0_se, l0_ce, l0_pe`). -/
def cfgC : HillConfig := ⟨0.01, 0.01, 1, 2, 1, 1.4⟩

/-- Witness for `compliantInit_regimes`: with tendon slack length `2`, a
musculotendon length of `1` falls in regime 2 and the fiber length is the
floor `0.001 * l0_ce`. -/
theorem compliantInit_regimes_witness :
    initial_muscle_len cfgC 1 = 0.001 * cfgC.l0_ce :=
  (compliantInit_regimes cfgC 1).2.1 (by norm_num) (by norm_num [cfgC])

/-- Claim C3: whenever `k_pe * l0_se ^ 2 ≠ k_se * l0_ce ^ 2`, the regime-4
closed-form quadratic equilibrium evaluated at the regime-3/4 boundary
`lmt = l0_se + l0_pe` equals `l0_pe`, the same fiber length the regime-3
formula `lmt - l0_se` gives there, and hence the same strains and forces. -/
theorem equilibrium_boundary_continuity (c : HillConfig)
    (h : c.k_pe * c.l0_se ^ 2 ≠ k_se * c.l0_ce ^ 2) :
    equilibrium_muscle_len c (c.l0_se + c.l0_pe) = c.l0_pe
    ∧ (c.l0_se + c.l0_pe) - c.l0_se = c.l0_pe
    ∧ compliantForces c (equilibrium_muscle_len c (c.l0_se + c.l0_pe))
        (c.l0_se + c.l0_pe)
      = compliantForces c ((c.l0_se + c.l0_pe) - c.l0_se) (c.l0_se + c.l0_pe) := by
  have hden : c.k_pe * c.l0_se ^ 2 - k_se * c.l0_ce ^ 2 ≠ 0 := sub_ne_zero.mpr h
  have h4 : equilibrium_muscle_len c (c.l0_se + c.l0_pe) = c.l0_pe := by
    unfold equilibrium_muscle_len
    rw [div_eq_iff hden]
    ring
  have h3 : (c.l0_se + c.l0_pe) - c.l0_se = c.l0_pe := by ring
  exact ⟨h4, h3, by rw [h4, h3]⟩

/-- Witness for `equilibrium_boundary_continuity` at the concrete
configuration `cfgC` (where `k_pe * l0_se ^ 2 = 4 / 0.0676 ≠ 625`). -/
theorem equilibrium_boundary_continuity_witness :
    equilibrium_muscle_len cfgC (cfgC.l0_se + cfgC.l0_pe) = cfgC.l0_pe
    ∧ (cfgC.l0_se + cfgC.l0_pe) - cfgC.l0_se = cfgC.l0_pe
    ∧ compliantForces cfgC (equilibrium_muscle_len cfgC (cfgC.l0_se + cfgC.l0_pe))
        (cfgC.l0_se + cfgC.l0_pe)
      = compliantForces cfgC ((cfgC.l0_se + cfgC.l0_pe) - cfgC.l0_se)
          (cfgC.l0_se + cfgC.l0_pe) :=
  equilibrium_boundary_continuity cfgC
    (by norm_num [HillConfig.k_pe, k_se, cfgC])

/-- A concrete rigid-tendon configuration
(`dt, min_activation, max_iso_force, l0_se, l0_ce, l0_pe`). -/
def cfgK : HillConfig := ⟨0.01, 0.001, 1, 1, 0.5, 0.7⟩

/-- Claim C4, counterexample: at musculotendon length `0` with tendon slack
length `1`, the Kistemaker rigid-tendon `integrate` clamps the fiber length
to `0`, so `fiberLength + tendonSlackLength = 1 ≠ 0 = musculotendonLength`. -/
theorem rigid_fiber_length_counterexample :
    (rigidIntegrate cfgK 0.01 0 0.001 0 0).muscle_len + cfgK.l0_se ≠ 0 := by
  have : (rigidIntegrate cfgK 0.01 0 0.001 0 0).muscle_len
      = max ((0:ℝ) - cfgK.l0_se) 0 := rfl
  rw [this]
  norm_num [cfgK]

/-- Claim C4, amended: for the Kistemaker and Thelen rigid-tendon variants,
`fiberLength + tendonSlackLength = musculotendonLength` holds exactly whenever
the musculotendon length is at least the clamp floor above the tendon slack
length (`l0_se` for Kistemaker, `l0_se + 0.001` for Thelen); below it the
fiber length is clamped to the floor (`0`, resp. `0.001`). -/
theorem rigid_fiber_length_amended (c : HillConfig) (dt d a0 lmt vel : ℝ) :
    (c.l0_se ≤ lmt → (rigidIntegrate c dt d a0 lmt vel).muscle_len + c.l0_se = lmt)
    ∧ (lmt ≤ c.l0_se → (rigidIntegrate c dt d a0 lmt vel).muscle_len = 0)
    ∧ (c.l0_se + 0.001 ≤ lmt →
        (thelenIntegrate c dt d a0 lmt vel).muscle_len + c.l0_se = lmt)
    ∧ (lmt ≤ c.l0_se + 0.001 →
        (thelenIntegrate c dt d a0 lmt vel).muscle_len = 0.001) := by
  refine ⟨fun h => ?_, fun h => ?_, fun h => ?_, fun h => ?_⟩
  · show max (lmt - c.l0_se) 0 + c.l0_se = lmt
    rw [max_eq_left (by linarith)]
    ring
  · show max (lmt - c.l0_se) 0 = 0
    rw [max_eq_right (by linarith)]
  · show max (lmt - c.l0_se) 0.001 + c.l0_se = lmt
    rw [max_eq_left (by linarith)]
    ring
  · show max (lmt - c.l0_se) 0.001 = 0.001
    rw [max_eq_right (by linarith)]

/-- Witness for `rigid_fiber_length_amended`: at musculotendon length `5`
both rigid variants satisfy the invariant exactly. -/
theorem rigid_fiber_length_amended_witness :
    (rigidIntegrate cfgK 0.01 0 0.001 5 0).muscle_len + cfgK.l0_se = 5
    ∧ (thelenIntegrate cfgK 0.01 0 0.001 5 0).muscle_len + cfgK.l0_se = 5 :=
  ⟨(rigid_fiber_length_amended cfgK 0.01 0 0.001 5 0).1 (by norm_num [cfgK]),
   (rigid_fiber_length_amended cfgK 0.01 0 0.001 5 0).2.2.1 (by norm_num [cfgK])⟩

/- `RigidTendonHillMuscle.build`, modelled over whole parameter arrays with
TensorFlow's error semantics: `tf.cast(None)` fails, `tf.reshape` fails on an
element-count mismatch, and elementwise binary ops broadcast a size-1 operand. -/

/-- `np.array(x).size` for an optional parameter: `np.array(None)` is a 0-d
object array of size 1. -/
def npSize : Option (List ℝ) → ℕ
  | none => 1
  | some l => l.length

/-- `tf.reshape(tf.cast(x, float32), (1, 1, n))`: fails on `None` (cast) or
when the element count differs from `n` (reshape). -/
def reshapeCast : Option (List ℝ) → ℕ → Except String (List ℝ)
  | none, _ => .error "cast: None values not supported"
  | some l, n => if l.length = n then .ok l else .error "reshape: size mismatch"

/-- An elementwise binary tensor op with numpy-style broadcasting over the
muscle axis: equal sizes zip, a size-1 operand broadcasts, anything else is a
shape error. -/
def broadcastOp (f : ℝ → ℝ → ℝ) (a b : List ℝ) : Except String (List ℝ) :=
  if a.length = b.length then .ok (List.zipWith f a b)
  else if b.length = 1 then .ok (a.map fun x => f x b.headI)
  else if a.length = 1 then .ok (b.map fun y => f a.headI y)
  else .error "broadcast: incompatible shapes"

/-- The configuration produced by a successful `RigidTendonHillMuscle.build`. -/
structure RigidBuilt where
  dt : ℝ
  n_muscles : ℕ
  l0_ce : List ℝ
  l0_pe : List ℝ
  k_pe : List ℝ
  max_iso_force : List ℝ
  l0_se : List ℝ
  musculotendon_slack_len : List ℝ
  vmax : List ℝ

/-- `RigidTendonHillMuscle.build` in source order: `n_muscles` is the size of
`tendon_length`, then `l0_ce`, `l0_pe`, `k_pe`, `max_iso_force`, `l0_se`,
`musculotendon_slack_len` and `vmax` are derived, each step failing exactly
where the TensorFlow op would. -/
def buildRigid (timestep : ℝ) (max_isometric_force tendon_length
    optimal_muscle_length normalized_slack_muscle_length : Option (List ℝ)) :
    Except String RigidBuilt := do
  let n := npSize tendon_length
  let l0_ce ← reshapeCast optimal_muscle_length n
  let nsml ← match normalized_slack_muscle_length with
    | none => Except.error "mul: None values not supported"
    | some l => Except.ok l
  let l0_pe ← broadcastOp (fun x y => x * y) l0_ce nsml
  let k_pe ← broadcastOp (fun p ce => 1 / (1.66 - p / ce) ^ 2) l0_pe l0_ce
  let mif ← reshapeCast max_isometric_force n
  let l0_se ← reshapeCast tendon_length n
  let slack ← broadcastOp (fun x y => x + y) l0_pe l0_se
  Except.ok ⟨timestep, n, l0_ce, l0_pe, k_pe, mif, l0_se, slack,
    l0_ce.map fun x => 10 * x⟩

theorem except_bind_ok {α β ε : Type} (a : α) (f : α → Except ε β) :
    (Except.ok a : Except ε α) >>= f = f a := rfl

theorem except_bind_error {α β ε : Type} (e : ε) (f : α → Except ε β) :
    (Except.error e : Except ε α) >>= f = Except.error e := rfl

theorem except_isOk_error {α ε : Type} (e : ε) :
    (Except.error e : Except ε α).isOk = false := rfl

theorem reshapeCast_ok {x : Option (List ℝ)} {n : ℕ} {l : List ℝ}
    (h : reshapeCast x n = .ok l) : x = some l ∧ l.length = n := by
  cases x with
  | none => simp [reshapeCast] at h
  | some a =>
    simp only [reshapeCast] at h
    by_cases hl : a.length = n
    · rw [if_pos hl] at h
      injection h with h
      exact ⟨by rw [h], h ▸ hl⟩
    · rw [if_neg hl] at h
      exact Except.noConfusion h

theorem broadcastOp_ok {f : ℝ → ℝ → ℝ} {a b r : List ℝ}
    (h : broadcastOp f a b = .ok r) :
    a.length = b.length ∨ b.length = 1 ∨ a.length = 1 := by
  by_cases h1 : a.length = b.length
  · exact Or.inl h1
  · by_cases h2 : b.length = 1
    · exact Or.inr (Or.inl h2)
    · by_cases h3 : a.length = 1
      · exact Or.inr (Or.inr h3)
      · rw [broadcastOp, if_neg h1, if_neg h2, if_neg h3] at h
        exact Except.noConfusion h

/-- A successful `buildRigid` pins down the presence and sizes of every
parameter array. -/
theorem buildRigid_ok_conditions (ts : ℝ) (mif tl oml nsml : Option (List ℝ))
    (h : (buildRigid ts mif tl oml nsml).isOk = true) :
    (∃ lo, oml = some lo ∧ lo.length = npSize tl)
    ∧ (∃ lm, mif = some lm ∧ lm.length = npSize tl)
    ∧ (∃ lt, tl = some lt)
    ∧ (∃ ln, nsml = some ln ∧
        (npSize tl = ln.length ∨ ln.length = 1 ∨ npSize tl = 1)) := by
  unfold buildRigid at h
  cases hoc : reshapeCast oml (npSize tl) with
  | error e =>
    simp [hoc, except_bind_error, except_isOk_error] at h
  | ok l0_ce =>
    simp only [hoc, except_bind_ok] at h
    obtain ⟨hoeq, holen⟩ := reshapeCast_ok hoc
    cases nsml with
    | none => simp [except_bind_error, except_isOk_error] at h
    | some ln =>
      simp only [except_bind_ok] at h
      cases hbc : broadcastOp (fun x y => x * y) l0_ce ln with
      | error e =>
        simp [hbc, except_bind_error, except_isOk_error] at h
      | ok l0_pe =>
        simp only [hbc, except_bind_ok] at h
        have hcompat := broadcastOp_ok hbc
        cases hk : broadcastOp (fun p ce => 1 / (1.66 - p / ce) ^ 2) l0_pe l0_ce with
        | error e =>
          rw [hk] at h
          simp [except_bind_error, except_isOk_error] at h
        | ok k_pe =>
          simp only [hk, except_bind_ok] at h
          cases hm : reshapeCast mif (npSize tl) with
          | error e =>
            simp [hm, except_bind_error, except_isOk_error] at h
          | ok lm =>
            simp only [hm, except_bind_ok] at h
            obtain ⟨hmeq, hmlen⟩ := reshapeCast_ok hm
            cases ht : reshapeCast tl (npSize tl) with
            | error e =>
              simp [ht, except_bind_error, except_isOk_error] at h
            | ok lt =>
              obtain ⟨hteq, -⟩ := reshapeCast_ok ht
              refine ⟨⟨l0_ce, hoeq, holen⟩, ⟨lm, hmeq, hmlen⟩, ⟨lt, hteq⟩,
                ⟨ln, rfl, ?_⟩⟩
              rw [← holen]
              rcases hcompat with hc | hc | hc
              · exact Or.inl hc
              · exact Or.inr (Or.inl hc)
              · exact Or.inr (Or.inr (holen ▸ hc))

/-- Claim C6, counterexample: `build` does not reject every per-muscle
parameter-size disagreement: with two muscles (`tendon_length`,
`optimal_muscle_length` and `max_isometric_force` of size 2) a
`normalized_slack_muscle_length` array of size 1 broadcasts elementwise and
`build` succeeds instead of raising a configuration error. -/
theorem buildRigid_counterexample :
    (buildRigid 0.01 (some [2, 2]) (some [3, 3]) (some [1, 1])
      (some [1.4])).isOk = true := rfl

/-- Claim C6, amended: `build` fails when a required parameter is missing (the
TensorFlow cast/multiply of `None` raises), or when `max_isometric_force` or
`optimal_muscle_length` disagree in size with `tendon_length` (the reshape
raises), or when `normalized_slack_muscle_length` has a size that is not
broadcast-compatible (neither the number of muscles nor 1, with more than one
muscle); a size-1 `normalized_slack_muscle_length` broadcasts silently. The
failure comes from `build` itself, before any initial-state or integration
call. -/
theorem buildRigid_amended (ts : ℝ) (mif tl oml nsml : Option (List ℝ)) :
    ((mif = none ∨ tl = none ∨ oml = none ∨ nsml = none) →
      (buildRigid ts mif tl oml nsml).isOk = false)
    ∧ (∀ lm lt, mif = some lm → tl = some lt → lm.length ≠ lt.length →
      (buildRigid ts mif tl oml nsml).isOk = false)
    ∧ (∀ lo lt, oml = some lo → tl = some lt → lo.length ≠ lt.length →
      (buildRigid ts mif tl oml nsml).isOk = false)
    ∧ (∀ ln lt, nsml = some ln → tl = some lt → ln.length ≠ lt.length →
      ln.length ≠ 1 → lt.length ≠ 1 →
      (buildRigid ts mif tl oml nsml).isOk = false) := by
  have base : ¬ (buildRigid ts mif tl oml nsml).isOk = true →
      (buildRigid ts mif tl oml nsml).isOk = false := by
    intro hn
    cases hb : (buildRigid ts mif tl oml nsml).isOk
    · rfl
    · exact absurd hb hn
  refine ⟨fun hc => base fun ht => ?_,
    fun lm lt hm htl hne => base fun ht => ?_,
    fun lo lt ho htl hne => base fun ht => ?_,
    fun ln lt hn htl hne hn1 ht1 => base fun ht => ?_⟩
  · obtain ⟨⟨lo, hlo, -⟩, ⟨lm, hlm, -⟩, ⟨lt, hlt⟩, ⟨ln, hln, -⟩⟩ :=
      buildRigid_ok_conditions ts mif tl oml nsml ht
    rcases hc with rfl | rfl | rfl | rfl
    · exact Option.noConfusion hlm
    · exact Option.noConfusion hlt
    · exact Option.noConfusion hlo
    · exact Option.noConfusion hln
  · obtain ⟨-, ⟨lm', hlm', hlen'⟩, -, -⟩ :=
      buildRigid_ok_conditions ts mif tl oml nsml ht
    rw [hm] at hlm'
    injection hlm' with he
    subst htl
    subst he
    exact hne hlen'
  · obtain ⟨⟨lo', hlo', hlen'⟩, -, -, -⟩ :=
      buildRigid_ok_conditions ts mif tl oml nsml ht
    rw [ho] at hlo'
    injection hlo' with he
    subst htl
    subst he
    exact hne hlen'
  · obtain ⟨-, -, -, ⟨ln', hln', hdisj⟩⟩ :=
      buildRigid_ok_conditions ts mif tl oml nsml ht
    rw [hn] at hln'
    injection hln' with he
    subst htl
    subst he
    rcases hdisj with hd | hd | hd
    · exact hne hd.symm
    · exact hn1 hd
    · exact ht1 hd

/-- Witness for `buildRigid_amended`: a `max_isometric_force` of size 1
against a `tendon_length` of size 2 makes `build` fail. -/
theorem buildRigid_amended_witness :
    (buildRigid 0.01 (some [1]) (some [1, 1]) (some [1, 1])
      (some [1.4])).isOk = false :=
  (buildRigid_amended 0.01 (some [1]) (some [1, 1]) (some [1, 1])
      (some [1.4])).2.1 [1] [1, 1] rfl rfl (by decide)

/-- A concrete `ReluMuscle` configuration (`dt, min_activation, max_iso_force`). -/
def cfgR : ReluConfig := ⟨0.01, 0, 1⟩

/-- Claim C7: for every muscle variant and all inputs, the activation stored in
the state returned by `integrate` lies in `[min_activation, 1]` (given the
configuration's `min_activation ≤ 1`). -/
theorem integrate_activation_bounds (c : HillConfig) (rc : ReluConfig)
    (dt d a0 lmt vel d_act d_vel prev_len : ℝ)
    (hc : c.min_activation ≤ 1) (hr : rc.min_activation ≤ 1) :
    (rc.min_activation ≤ (reluIntegrate rc dt d a0 lmt vel).activation
      ∧ (reluIntegrate rc dt d a0 lmt vel).activation ≤ 1)
    ∧ (c.min_activation ≤ (rigidIntegrate c dt d a0 lmt vel).activation
      ∧ (rigidIntegrate c dt d a0 lmt vel).activation ≤ 1)
    ∧ (c.min_activation ≤ (thelenIntegrate c dt d a0 lmt vel).activation
      ∧ (thelenIntegrate c dt d a0 lmt vel).activation ≤ 1)
    ∧ (c.min_activation
        ≤ (compliantIntegrate c dt d_act d_vel a0 prev_len lmt).activation
      ∧ (compliantIntegrate c dt d_act d_vel a0 prev_len lmt).activation ≤ 1) := by
  refine ⟨⟨?_, ?_⟩, ⟨?_, ?_⟩, ⟨?_, ?_⟩, ⟨?_, ?_⟩⟩
  · exact le_clip (a0 + d * dt) rc.min_activation 1
  · exact clip_le hr
  · exact le_clip (a0 + d * dt) c.min_activation 1
  · exact clip_le hc
  · exact le_clip (a0 + d * dt) c.min_activation 1
  · exact clip_le hc
  · exact le_clip (a0 + d_act * dt) c.min_activation 1
  · exact clip_le hc

/-- Witness for `integrate_activation_bounds` at concrete configurations and
inputs. -/
theorem integrate_activation_bounds_witness :
    (cfgR.min_activation ≤ (reluIntegrate cfgR 0.01 2 0.5 1 0).activation
      ∧ (reluIntegrate cfgR 0.01 2 0.5 1 0).activation ≤ 1)
    ∧ (cfgK.min_activation ≤ (rigidIntegrate cfgK 0.01 2 0.5 1 0).activation
      ∧ (rigidIntegrate cfgK 0.01 2 0.5 1 0).activation ≤ 1)
    ∧ (cfgK.min_activation ≤ (thelenIntegrate cfgK 0.01 2 0.5 1 0).activation
      ∧ (thelenIntegrate cfgK 0.01 2 0.5 1 0).activation ≤ 1)
    ∧ (cfgK.min_activation ≤ (compliantIntegrate cfgK 0.01 2 0 0.5 0.4 1).activation
      ∧ (compliantIntegrate cfgK 0.01 2 0 0.5 0.4 1).activation ≤ 1) :=
  integrate_activation_bounds cfgK cfgR 0.01 2 0.5 1 0 2 0 0.4
    (by norm_num [cfgK]) (by norm_num [cfgR])

/-- Claim C10: for both rigid-tendon variants, the initial state is exactly the
result of `integrate` with the configured timestep, a zero derivative and an
all-`min_activation` activation channel; in particular its activation equals
`min_activation` and its force field equals the force `integrate` computes
from the given geometry at that activation. -/
theorem rigid_init_refines_integrate (c : HillConfig) (lmt vel : ℝ) :
    rigidInit c lmt vel = rigidIntegrate c c.dt 0 c.min_activation lmt vel
    ∧ thelenInit c lmt vel = thelenIntegrate c c.dt 0 c.min_activation lmt vel
    ∧ (rigidInit c lmt vel).activation = c.min_activation
    ∧ (thelenInit c lmt vel).activation = c.min_activation
    ∧ (rigidInit c lmt vel).force
        = (rigidIntegrate c c.dt 0 c.min_activation lmt vel).force
    ∧ (thelenInit c lmt vel).force
        = (thelenIntegrate c c.dt 0 c.min_activation lmt vel).force := by
  have hact : clip (c.min_activation + 0 * c.dt) c.min_activation 1
      = c.min_activation := by
    rw [zero_mul, add_zero]
    exact max_eq_right (min_le_left _ _)
  exact ⟨rfl, rfl, hact, hact, rfl, rfl⟩

theorem compliantForces_bounds (c : HillConfig) (ml lmt : ℝ) :
    0 ≤ (compliantForces c ml lmt).1 ∧ (compliantForces c ml lmt).1 ≤ 3
    ∧ 0 ≤ (compliantForces c ml lmt).2.1 ∧ (compliantForces c ml lmt).2.1 ≤ 3
    ∧ 0 ≤ (compliantForces c ml lmt).2.2 := by
  refine ⟨?_, ?_, ?_, ?_, ?_⟩
  · exact le_min (mul_nonneg (by norm_num [k_se]) (sq_nonneg _)) (by norm_num)
  · exact min_le_right _ _
  · exact le_min (mul_nonneg (div_nonneg zero_le_one (sq_nonneg _)) (sq_nonneg _))
      (by norm_num)
  · exact min_le_right _ _
  · exact le_max_right _ _

/-- Claim C8: for every variant, the force components of the state produced by
`integrate` (and, for the compliant model, by `initialState` when it
succeeds) are non-negative given a non-negative maximum isometric force, and
the compliant series-elastic and passive terms are the quadratic force laws
capped at 3. -/
theorem force_components_nonneg (c : HillConfig) (rc : ReluConfig)
    (dt d a0 lmt vel d_act d_vel prev_len : ℝ)
    (hrm : 0 ≤ rc.max_iso_force) (hm : 0 ≤ c.max_iso_force)
    (hma0 : 0 ≤ c.min_activation) :
    (0 ≤ (reluIntegrate rc dt d a0 lmt vel).force
      ∧ 0 ≤ (reluInit rc lmt vel).force)
    ∧ (0 ≤ (rigidIntegrate c dt d a0 lmt vel).active_force
      ∧ 0 ≤ (rigidIntegrate c dt d a0 lmt vel).flpe
      ∧ 0 ≤ (rigidIntegrate c dt d a0 lmt vel).force)
    ∧ (0 ≤ (thelenIntegrate c dt d a0 lmt vel).fvce
      ∧ 0 ≤ (thelenIntegrate c dt d a0 lmt vel).flpe
      ∧ 0 ≤ (thelenIntegrate c dt d a0 lmt vel).force)
    ∧ (0 ≤ (compliantIntegrate c dt d_act d_vel a0 prev_len lmt).active_force
      ∧ 0 ≤ (compliantIntegrate c dt d_act d_vel a0 prev_len lmt).flpe
      ∧ (compliantIntegrate c dt d_act d_vel a0 prev_len lmt).flpe ≤ 3
      ∧ 0 ≤ (compliantIntegrate c dt d_act d_vel a0 prev_len lmt).flse
      ∧ (compliantIntegrate c dt d_act d_vel a0 prev_len lmt).flse ≤ 3
      ∧ 0 ≤ (compliantIntegrate c dt d_act d_vel a0 prev_len lmt).force
      ∧ (compliantIntegrate c dt d_act d_vel a0 prev_len lmt).flse
          = min (k_se * max ((lmt - prev_len - c.l0_se) / c.l0_se) 0 ^ 2) 3
      ∧ (compliantIntegrate c dt d_act d_vel a0 prev_len lmt).flpe
          = min (c.k_pe * max ((prev_len - c.l0_pe) / c.l0_ce) 0 ^ 2) 3)
    ∧ (∀ s, compliantInit c lmt = .ok s →
        0 ≤ s.active_force ∧ 0 ≤ s.flpe ∧ s.flpe ≤ 3
        ∧ 0 ≤ s.flse ∧ s.flse ≤ 3 ∧ 0 ≤ s.force) := by
  have hact : 0 ≤ clip (a0 + d * dt) c.min_activation 1 :=
    le_trans hma0 (le_clip _ _ _)
  have hbI := compliantForces_bounds c prev_len lmt
  have hb0 := compliantForces_bounds c (initial_muscle_len c lmt) lmt
  refine ⟨⟨?_, ?_⟩, ⟨?_, ?_, ?_⟩, ⟨?_, ?_, ?_⟩,
    ⟨hbI.2.2.2.2, hbI.2.2.1, hbI.2.2.2.1, hbI.1, hbI.2.1, ?_, rfl, rfl⟩, ?_⟩
  · exact mul_nonneg (le_max_right _ _) hrm
  · exact le_refl 0
  · exact le_max_right _ _
  · exact le_min (mul_nonneg (div_nonneg zero_le_one (sq_nonneg _)) (sq_nonneg _))
      (by norm_num)
  · exact mul_nonneg (add_nonneg (le_max_right _ _)
      (le_min (mul_nonneg (div_nonneg zero_le_one (sq_nonneg _)) (sq_nonneg _))
        (by norm_num))) hm
  · exact le_max_right _ _
  · exact le_max_right _ _
  · exact mul_nonneg (add_nonneg
      (mul_nonneg (mul_nonneg hact (Real.exp_pos _).le) (le_max_right _ _))
      (le_max_right _ _)) hm
  · exact mul_nonneg hbI.1 hm
  · intro s h
    simp only [compliantInit] at h
    by_cases hneg : initial_muscle_len c lmt < 0
    · rw [if_pos hneg] at h
      exact Except.noConfusion h
    · rw [if_neg hneg] at h
      cases hode : muscle_ode (initial_muscle_len c lmt / c.l0_ce) c.min_activation
          (compliantForces c (initial_muscle_len c lmt) lmt).2.2 with
      | error e =>
        rw [hode] at h
        exact Except.noConfusion h
      | ok v =>
        rw [hode] at h
        injection h with h
        subst h
        exact ⟨hb0.2.2.2.2, hb0.2.2.1, hb0.2.2.2.1, hb0.1, hb0.2.1,
          mul_nonneg hb0.1 hm⟩

/-- Witness for `force_components_nonneg` at concrete configurations and
inputs. -/
theorem force_components_nonneg_witness :
    (0 ≤ (reluIntegrate cfgR 0.01 2 0.5 1 0).force
      ∧ 0 ≤ (reluInit cfgR 1 0).force)
    ∧ (0 ≤ (rigidIntegrate cfgK 0.01 2 0.5 1 0).active_force
      ∧ 0 ≤ (rigidIntegrate cfgK 0.01 2 0.5 1 0).flpe
      ∧ 0 ≤ (rigidIntegrate cfgK 0.01 2 0.5 1 0).force)
    ∧ (0 ≤ (thelenIntegrate cfgK 0.01 2 0.5 1 0).fvce
      ∧ 0 ≤ (thelenIntegrate cfgK 0.01 2 0.5 1 0).flpe
      ∧ 0 ≤ (thelenIntegrate cfgK 0.01 2 0.5 1 0).force)
    ∧ (0 ≤ (compliantIntegrate cfgK 0.01 2 0 0.5 0.4 1).active_force
      ∧ 0 ≤ (compliantIntegrate cfgK 0.01 2 0 0.5 0.4 1).flpe
      ∧ (compliantIntegrate cfgK 0.01 2 0 0.5 0.4 1).flpe ≤ 3
      ∧ 0 ≤ (compliantIntegrate cfgK 0.01 2 0 0.5 0.4 1).flse
      ∧ (compliantIntegrate cfgK 0.01 2 0 0.5 0.4 1).flse ≤ 3
      ∧ 0 ≤ (compliantIntegrate cfgK 0.01 2 0 0.5 0.4 1).force
      ∧ (compliantIntegrate cfgK 0.01 2 0 0.5 0.4 1).flse
          = min (k_se * max ((1 - 0.4 - cfgK.l0_se) / cfgK.l0_se) 0 ^ 2) 3
      ∧ (compliantIntegrate cfgK 0.01 2 0 0.5 0.4 1).flpe
          = min (cfgK.k_pe * max ((0.4 - cfgK.l0_pe) / cfgK.l0_ce) 0 ^ 2) 3)
    ∧ (∀ s, compliantInit cfgK 1 = .ok s →
        0 ≤ s.active_force ∧ 0 ≤ s.flpe ∧ s.flpe ≤ 3
        ∧ 0 ≤ s.flse ∧ s.flse ≤ 3 ∧ 0 ≤ s.force) :=
  force_components_nonneg cfgK cfgR 0.01 2 0.5 1 0 2 0 0.4
    (by norm_num [cfgR]) (by norm_num [cfgK]) (by norm_num [cfgK])

/-- Claim C9: the Thelen-variant `integrate` computes the exponential passive
force-length, the Gaussian-like active force-length, the closed-form rational
force-velocity value split at `velocity ≤ 0` versus `> 0`, and the total
force `(activation * flce * fvce + flpe) * max_iso_force`. -/
theorem thelen_force_formulas (c : HillConfig) (dt d a0 lmt vel : ℝ) :
    (thelenIntegrate c dt d a0 lmt vel).flpe
      = max ((Real.exp (5 / 0.66 * (max (lmt - c.l0_se) 0.001 - c.l0_pe) / c.l0_ce)
            - 1) / (Real.exp 5 - 1)) 0
    ∧ (thelenIntegrate c dt d a0 lmt vel).flce
      = Real.exp (-((max (lmt - c.l0_se) 0.001 / c.l0_ce - 1) ^ 2) / 0.45)
    ∧ (thelenIntegrate c dt d a0 lmt vel).fvce
      = max ((if vel ≤ 0
          then 0.25 * ((thelenIntegrate c dt d a0 lmt vel).activation
              * (3 * (10 * c.l0_ce)) + 4 * vel + 10 * c.l0_ce)
          else (3 * 0.25 * (10 * c.l0_ce) * 1.4 - 3 * 0.25 * (10 * c.l0_ce))
              * (thelenIntegrate c dt d a0 lmt vel).activation
            + (8 * 0.25 * 1.4 + 8 * 1.4) * vel
            + (0.25 * 1.4 * (10 * c.l0_ce) - 0.25 * (10 * c.l0_ce)))
        / (if vel ≤ 0
          then (thelenIntegrate c dt d a0 lmt vel).activation * 3
              * (0.25 * (10 * c.l0_ce)) + 0.25 * (10 * c.l0_ce) - 4 * vel
          else (0.25 * 1.4 * (10 * c.l0_ce) - 0.25 * (10 * c.l0_ce))
              * ((thelenIntegrate c dt d a0 lmt vel).activation * 3)
            + 8 * (0.25 + 1) * vel
            + (0.25 * 1.4 * (10 * c.l0_ce) - 0.25 * (10 * c.l0_ce)))) 0
    ∧ (thelenIntegrate c dt d a0 lmt vel).force
      = ((thelenIntegrate c dt d a0 lmt vel).activation
          * (thelenIntegrate c dt d a0 lmt vel).flce
          * (thelenIntegrate c dt d a0 lmt vel).fvce
          + (thelenIntegrate c dt d a0 lmt vel).flpe) * c.max_iso_force :=
  ⟨rfl, rfl, rfl, rfl⟩

end

end MotorNet
